import Mathlib

/-!
Shallow embedding of the AdCampaignManager browser application
(services over a JSON key-value store, screen navigation, template editors),
with theorems checking the specification's claims against it.

Modelling conventions:
  - `localStorage` is an association list of string keys to stored cells,
    together with a `quotaFull` flag (the environment condition under which
    the raw `localStorage.setItem` throws `QuotaExceededError`).
  - A stored cell is either the JSON serialization of an application value
    (`Cell.json v`; `JSON.stringify`/`JSON.parse` round-trip on these) or an
    unparseable string written by something else (`Cell.junk`), on which
    `JSON.parse` throws.
  - Timestamps (`Date.now()`, `new Date().toISOString()`) are a `Nat`
    parameter `now` passed to each operation that reads the clock; the ISO
    rendering is abstracted away, and comparing `new Date` values of two
    stored timestamps corresponds to comparing the `Nat`s.
  - DOM form inputs are modelled as present (the app's HTML provides them),
    so `input?.value` is the field's string.
  - `console.log` / `console.error` output relevant to the claims is
    returned as a `List String` log alongside the new state.
-/

/-- A registered user record, as stored in the `app_users` list:
`{username, password}` (plaintext). -/
structure User where
  username : String
  password : String
deriving DecidableEq

/-- Banner asset data as built by `BannerEditor.saveBanner`. The source
stores `fontSize` as the input's string value, defaulting to the number
`16` when the input is empty; the model keeps the string "16" there. -/
structure BannerData where
  type : String
  text : String
  bgColor : String
  textColor : String
  fontSize : String
  fontFamily : String
deriving DecidableEq

/-- Marketing page asset data as built by `MarketingPageEditor.savePage`. -/
structure MarketingPageData where
  templateId : String
  title : String
  paragraph1 : String
  imageUrl : String
  bgColor : String
  textColor : String
deriving DecidableEq

/-- Landing page asset data as built by `LandingPageEditor.savePage`. -/
structure LandingPageData where
  templateId : String
  title : String
  paragraph : String
  imageUrl : String
  ctaText : String
  ctaLink : String
  bgColor : String
  textColor : String
  includeLeadForm : Bool
deriving DecidableEq

/-- The `assets` sub-object of a campaign record: each slot is the asset
data or `null`. -/
structure Assets where
  banner : Option BannerData
  marketingPage : Option MarketingPageData
  landingPage : Option LandingPageData
deriving DecidableEq

/-- A campaign record as created by `CampaignService.createCampaign` and
stored under a `campaign_`-prefixed key or the active-campaign pointer key.
`lastUpdated` is `none` when the record has no such field (a fresh record;
`setActiveCampaign` is the only writer of the field). -/
structure Campaign where
  id : String
  name : String
  status : String
  assets : Assets
  createdAt : Nat
  lastUpdated : Option Nat
deriving DecidableEq

/-- An application value as serialized to / parsed from Local Storage:
the session marker `{username}`, the `app_users` array, or a campaign
record. -/
inductive Val where
  | session (username : String)
  | users (l : List User)
  | campaign (c : Campaign)
deriving DecidableEq

/-- One stored string: the JSON serialization of an application value, or
an unparseable string (on which `JSON.parse` throws a `SyntaxError`). -/
inductive Cell where
  | json (v : Val)
  | junk
deriving DecidableEq

/-- The browser's Local Storage together with the quota condition under
which the raw `localStorage.setItem` throws. -/
structure Storage where
  items : List (String × Cell)
  quotaFull : Bool
deriving DecidableEq

/-- First binding of a key in an association list (`localStorage.getItem`
returns the single value stored for the key; the model keeps keys unique
by construction of `insertKV`). -/
def lookupKV {β : Type} : List (String × β) → String → Option β
  | [], _ => none
  | (k', v) :: rest, k => if k' = k then some v else lookupKV rest k

/-- Store a binding, replacing the existing one for the key if present,
appending otherwise (the semantics of `localStorage.setItem`). -/
def insertKV {β : Type} : List (String × β) → String → β → List (String × β)
  | [], k, v => [(k, v)]
  | (k', v') :: rest, k, v =>
      if k' = k then (k, v) :: rest else (k', v') :: insertKV rest k v

/-- Remove a key's binding (the semantics of `localStorage.removeItem`). -/
def eraseKV {β : Type} : List (String × β) → String → List (String × β)
  | [], _ => []
  | (k', v') :: rest, k =>
      if k' = k then rest else (k', v') :: eraseKV rest k

/-- The raw `localStorage.setItem`: throws `QuotaExceededError` when the
store is full, otherwise stores the JSON serialization of the value. -/
def rawSetItem (s : Storage) (k : String) (c : Cell) : Except String Storage :=
  if s.quotaFull then Except.error "QuotaExceededError"
  else Except.ok { s with items := insertKV s.items k c }

/-- `JSON.parse` applied to a stored cell: yields the value for a
serialized application value, throws a `SyntaxError` on junk. -/
def jsonParseCell : Cell → Except String Val
  | Cell.json v => Except.ok v
  | Cell.junk => Except.error "SyntaxError"

/-- `LocalStorageService.setItem(key, value)`: `JSON.stringify` the value
and store it, returning `true`; a throw from the raw store (quota) is
caught and converted to `false` with the store unchanged. -/
def LocalStorageService.setItem (s : Storage) (k : String) (v : Val) :
    Bool × Storage :=
  match rawSetItem s k (Cell.json v) with
  | Except.ok s' => (true, s')
  | Except.error _ => (false, s)

/-- `LocalStorageService.getItem(key)`: `null` for a missing key; the
parsed value otherwise, with a `JSON.parse` throw caught and converted to
`null`. -/
def LocalStorageService.getItem (s : Storage) (k : String) : Option Val :=
  match lookupKV s.items k with
  | none => none
  | some c =>
      match jsonParseCell c with
      | Except.ok v => some v
      | Except.error _ => none

/-- `LocalStorageService.removeItem(key)`. -/
def LocalStorageService.removeItem (s : Storage) (k : String) : Storage :=
  { s with items := eraseKV s.items k }

/-- JavaScript `a || b` on strings: the empty string is falsy. -/
def jsOr (v d : String) : String :=
  if v = "" then d else v

/-- `UserService._getUsers()`: the stored `app_users` list, or `[]` when
the key is missing or unparseable (`getItem(USERS_KEY) || []`). When the
key holds a parseable non-array value the source would pass it on and the
callers would throw a `TypeError`; the model returns `[]` there, and the
theorems exclude that state through `usersKeyOk`. -/
def UserService.getUsers (s : Storage) : List User :=
  match LocalStorageService.getItem s "app_users" with
  | some (Val.users l) => l
  | _ => []

/-- The `app_users` key holds a users array if it holds anything parseable
(the states on which `UserService.getUsers` is a faithful model). -/
def usersKeyOk (s : Storage) : Bool :=
  match LocalStorageService.getItem s "app_users" with
  | some (Val.users _) => true
  | none => true
  | some _ => false

/-- `UserService.getUser(username)`: first stored user with the username. -/
def UserService.getUser (s : Storage) (username : String) : Option User :=
  (UserService.getUsers s).find? (fun u => u.username = username)

/-- `UserService.saveUser(user)`: `false` when the username already
exists; otherwise append the user and write the list back (the source
ignores the write's success flag and returns `true`). -/
def UserService.saveUser (s : Storage) (user : User) : Bool × Storage :=
  let users := UserService.getUsers s
  if users.any (fun u => u.username = user.username) then (false, s)
  else
    (true,
     (LocalStorageService.setItem s "app_users" (Val.users (users ++ [user]))).2)

/-- `AuthService.login(username, password)`: on an exact password match,
persist the session marker `{username}` under `current_user` and return
`true` (the write's success flag is ignored); otherwise return `false`
with nothing written. Listener notification only triggers navigation and
DOM work, modelled separately. -/
def AuthService.login (s : Storage) (username password : String) :
    Bool × Storage :=
  match UserService.getUser s username with
  | some u =>
      if u.password = password then
        (true, (LocalStorageService.setItem s "current_user" (Val.session u.username)).2)
      else (false, s)
  | none => (false, s)

/-- `AuthService.signup(username, password)`: store the new user via
`UserService.saveUser`; on success auto-log-in with the same credentials,
otherwise return `false`. -/
def AuthService.signup (s : Storage) (username password : String) :
    Bool × Storage :=
  match UserService.saveUser s { username := username, password := password } with
  | (true, s1) => AuthService.login s1 username password
  | (false, s1) => (false, s1)

/-- `AuthService.getLoggedInUser()`: the parsed `current_user` marker, or
`null`. -/
def AuthService.getLoggedInUser (s : Storage) : Option Val :=
  LocalStorageService.getItem s "current_user"

/-- `AuthService.logout()`. -/
def AuthService.logout (s : Storage) : Storage :=
  LocalStorageService.removeItem s "current_user"

/-- `CampaignService.getActiveCampaign()`: the parsed value under the
`active_campaign` pointer key, or `null`. -/
def CampaignService.getActiveCampaign (s : Storage) : Option Val :=
  LocalStorageService.getItem s "active_campaign"

/-- `CampaignService.setActiveCampaign(campaignData)`: spread the record,
stamp `lastUpdated` with the current time, and write the copy under the
`active_campaign` key (the write's success flag is ignored). -/
def CampaignService.setActiveCampaign (s : Storage) (campaignData : Campaign)
    (now : Nat) : Storage :=
  (LocalStorageService.setItem s "active_campaign"
    (Val.campaign { campaignData with lastUpdated := some now })).2

/-- `CampaignService._generateCampaignId()`: `'campaign_' + Date.now()`. -/
def CampaignService.generateCampaignId (now : Nat) : String :=
  "campaign_" ++ toString now

/-- `CampaignService.saveCampaign(campaign)`: write the record under
`CAMPAIGN_PREFIX + campaign.id` (the write's success flag is ignored). -/
def CampaignService.saveCampaign (s : Storage) (c : Campaign) : Storage :=
  (LocalStorageService.setItem s ("campaign_" ++ c.id) (Val.campaign c)).2

/-- `CampaignService.createCampaign(campaignName)`: build the fresh record
(status `Draft`, empty asset slots, `createdAt` now, no `lastUpdated`
field), persist it via `saveCampaign`, and return it. -/
def CampaignService.createCampaign (s : Storage) (campaignName : String)
    (now : Nat) : Campaign × Storage :=
  let newCampaign : Campaign :=
    { id := CampaignService.generateCampaignId now
      name := campaignName
      status := "Draft"
      assets := { banner := none, marketingPage := none, landingPage := none }
      createdAt := now
      lastUpdated := none }
  (newCampaign, CampaignService.saveCampaign s newCampaign)

/-- `key.startsWith(CAMPAIGN_PREFIX)` for `CAMPAIGN_PREFIX = 'campaign_'`. -/
def isCampaignKey (k : String) : Bool :=
  "campaign_".data.isPrefixOf k.data

/-- The scan body of `CampaignService.getAllCampaigns`: walk every stored
key in order, keep the parsed values under `campaign_`-prefixed keys, skip
`null`s (missing never happens here; unparseable is skipped). A parseable
non-campaign value under such a key would be pushed as-is by the source;
the model skips it, and the theorems exclude that state through
`campaignKeysOk`. -/
def collectCampaigns : List (String × Cell) → List Campaign
  | [] => []
  | (k, cell) :: rest =>
      if isCampaignKey k then
        match jsonParseCell cell with
        | Except.ok (Val.campaign c) => c :: collectCampaigns rest
        | _ => collectCampaigns rest
      else collectCampaigns rest

/-- Every parseable value stored under a `campaign_`-prefixed key is a
campaign record (the states on which `collectCampaigns` is a faithful
model of the source's scan). -/
def campaignKeysOk (s : Storage) : Bool :=
  s.items.all (fun p =>
    !(isCampaignKey p.1) ||
      match p.2 with
      | Cell.json (Val.campaign _) => true
      | Cell.junk => true
      | _ => false)

/-- The sort comparator `(a, b) => new Date(b.lastUpdated) - new Date(a.lastUpdated)`:
descending on present timestamps; when either record lacks the field,
`new Date(undefined)` is `NaN`, and ECMAScript's SortCompare maps a `NaN`
comparator result to `+0`. -/
def jsCompare (a b : Campaign) : Int :=
  match b.lastUpdated, a.lastUpdated with
  | some tb, some ta => (tb : Int) - (ta : Int)
  | _, _ => 0

/-- Insert into a list already sorted by `jsCompare`, before the first
element not strictly required to come earlier (stable). -/
def jsInsertSorted (a : Campaign) : List Campaign → List Campaign
  | [] => [a]
  | b :: l => if jsCompare a b ≤ 0 then a :: b :: l else b :: jsInsertSorted a l

/-- `Array.prototype.sort` with `jsCompare` (stable, as ES2019 requires). -/
def jsSort (l : List Campaign) : List Campaign :=
  l.foldr jsInsertSorted []

/-- `CampaignService.getAllCampaigns()`: scan all storage keys, collect
parsed campaign records under `campaign_`-prefixed keys, sort descending
by `lastUpdated`. -/
def CampaignService.getAllCampaigns (s : Storage) : List Campaign :=
  jsSort (collectCampaigns s.items)

/-- The navigation registry and screen visibility: each registered screen
id maps to whether its element has the `hidden` class (`true` = hidden). -/
abbrev ScreenMap : Type := List (String × Bool)

/-- `NavigationService._hideAllScreens()`: add `hidden` to every
registered screen element. -/
def NavigationService.hideAllScreens (m : ScreenMap) : ScreenMap :=
  m.map (fun p => (p.1, true))

/-- Set a registered screen's `hidden` class (`classList.add` / `remove`);
an unregistered id is left as-is (the source throws a `TypeError` when it
dereferences an unregistered `main-app-content`; the app registers it). -/
def setHidden : ScreenMap → String → Bool → ScreenMap
  | [], _, _ => []
  | (k', h') :: rest, k, h =>
      if k' = k then (k, h) :: rest else (k', h') :: setHidden rest k h

/-- `NavigationService._showScreen(screenId)`: hide all registered
screens, then look the target up in the registry; if present, un-hide it
and toggle the `main-app-content` shell (hidden exactly for the login
screen); if absent, report an error — the hide-all mutation has already
happened. The per-screen render hooks only redraw editor inputs and
previews, never the `hidden` classes, so they do not appear here. -/
def NavigationService.showScreen (m : ScreenMap) (screenId : String) :
    ScreenMap × List String :=
  let m1 := NavigationService.hideAllScreens m
  match lookupKV m1 screenId with
  | some _ =>
      let m2 := setHidden m1 screenId false
      let m3 :=
        if screenId ≠ "login-screen" then setHidden m2 "main-app-content" false
        else setHidden m2 "main-app-content" true
      (m3, [])
  | none => (m1, ["Screen with ID \"" ++ screenId ++ "\" not registered."])

/-- `NavigationService.goToLogin()`. -/
def NavigationService.goToLogin (m : ScreenMap) : ScreenMap × List String :=
  NavigationService.showScreen m "login-screen"

/-- `NavigationService.goToDashboard()`: requires a session marker, else
redirects to the login screen. -/
def NavigationService.goToDashboard (s : Storage) (m : ScreenMap) :
    ScreenMap × List String :=
  if (AuthService.getLoggedInUser s).isSome then
    NavigationService.showScreen m "dashboard-screen"
  else NavigationService.goToLogin m

/-- `NavigationService.goToBannerEditor()`. -/
def NavigationService.goToBannerEditor (s : Storage) (m : ScreenMap) :
    ScreenMap × List String :=
  if (AuthService.getLoggedInUser s).isSome then
    NavigationService.showScreen m "banner-editor-screen"
  else NavigationService.goToLogin m

/-- `NavigationService.goToMarketingPageEditor()`. -/
def NavigationService.goToMarketingPageEditor (s : Storage) (m : ScreenMap) :
    ScreenMap × List String :=
  if (AuthService.getLoggedInUser s).isSome then
    NavigationService.showScreen m "marketing-editor-screen"
  else NavigationService.goToLogin m

/-- `NavigationService.goToLandingPageEditor()`. -/
def NavigationService.goToLandingPageEditor (s : Storage) (m : ScreenMap) :
    ScreenMap × List String :=
  if (AuthService.getLoggedInUser s).isSome then
    NavigationService.showScreen m "landing-editor-screen"
  else NavigationService.goToLogin m

/-- The landing-page editor's form fields (string inputs). -/
structure LandingFields where
  title : String
  paragraph : String
  imageUrl : String
  ctaText : String
  ctaLink : String
  bgColor : String
  textColor : String
deriving DecidableEq

/-- The landing editor's `templatesDefaults` catalog. -/
def LandingPageEditor.templatesDefaults (templateId : String) :
    Option LandingFields :=
  if templateId = "template1" then
    some
      { title := "Boost Your Business!"
        paragraph := "Learn how our innovative solutions can help you reach new customers and grow your revenue. Sign up now for a free consultation!"
        imageUrl := "https://placehold.co/800x400/eeeeee/333333?text=Your+Amazing+Product"
        ctaText := "Get Started Today"
        ctaLink := "#signup"
        bgColor := "#e0f2f7"
        textColor := "#0a2a43" }
  else if templateId = "template2" then
    some
      { title := "Limited Time Offer!"
        paragraph := "Grab this incredible deal before it's gone! High-quality products at unbeatable prices."
        imageUrl := "https://placehold.co/800x400/ffe0b2/8d6e63?text=Special+Discount"
        ctaText := "Claim Your Discount"
        ctaLink := "#discount"
        bgColor := "#fce4ec"
        textColor := "#4a148c" }
  else if templateId = "template3" then
    some
      { title := "Join Our Community"
        paragraph := "Become part of a thriving community of professionals. Share ideas, gain insights, and connect with peers."
        imageUrl := "https://placehold.co/800x400/c8e6c9/2e7d32?text=Community+Hub"
        ctaText := "Join Now"
        ctaLink := "#join"
        bgColor := "#e8f5e9"
        textColor := "#1b5e20" }
  else none

/-- `LandingPageEditor._applyTemplate(templateId)`: remember the current
title, paragraph and image URL; overwrite every field with the template's
defaults when the id is in the catalog; then restore the remembered three
values when they were non-empty (truthy). -/
def LandingPageEditor.applyTemplate (templateId : String) (f : LandingFields) :
    LandingFields :=
  let currentTitle := f.title
  let currentParagraph := f.paragraph
  let currentImageUrl := f.imageUrl
  let f1 :=
    match LandingPageEditor.templatesDefaults templateId with
    | some d => d
    | none => f
  let f2 := if currentTitle ≠ "" then { f1 with title := currentTitle } else f1
  let f3 :=
    if currentParagraph ≠ "" then { f2 with paragraph := currentParagraph }
    else f2
  if currentImageUrl ≠ "" then { f3 with imageUrl := currentImageUrl } else f3

/-- The marketing-page editor's form fields (string inputs). -/
structure MarketingFields where
  title : String
  paragraph1 : String
  imageUrl : String
  bgColor : String
  textColor : String
deriving DecidableEq

/-- The marketing editor's `templatesDefaults` catalog. -/
def MarketingPageEditor.templatesDefaults (templateId : String) :
    Option MarketingFields :=
  if templateId = "template1" then
    some
      { title := "Welcome to Our New Campaign!"
        paragraph1 := "Discover amazing new offers and products designed just for you. Click below to learn more!"
        imageUrl := "https://placehold.co/600x200/cccccc/333333?text=Your+Image"
        bgColor := "#f8f8f8"
        textColor := "#333333" }
  else if templateId = "template2" then
    some
      { title := "Exclusive Offer Just For You!"
        paragraph1 := "Don't miss out on our limited-time discounts. Get ready for savings that will surprise you!"
        imageUrl := "https://placehold.co/600x300/aaddff/000000?text=Special+Deal"
        bgColor := "#e0f7fa"
        textColor := "#004d40" }
  else if templateId = "template3" then
    some
      { title := "Quick Update from Our Team"
        paragraph1 := "We've got exciting news coming soon. Stay tuned for more information."
        imageUrl := "https://placehold.co/200x150/ffcccb/880000?text=News"
        bgColor := "#fffde7"
        textColor := "#424242" }
  else none

/-- `MarketingPageEditor._applyTemplate(templateId)`: remember the current
title, first paragraph and image URL; overwrite every field with the
template's defaults when the id is in the catalog; then restore the
remembered three values when they were non-empty (truthy). -/
def MarketingPageEditor.applyTemplate (templateId : String)
    (f : MarketingFields) : MarketingFields :=
  let currentTitle := f.title
  let currentParagraph1 := f.paragraph1
  let currentImageUrl := f.imageUrl
  let f1 :=
    match MarketingPageEditor.templatesDefaults templateId with
    | some d => d
    | none => f
  let f2 := if currentTitle ≠ "" then { f1 with title := currentTitle } else f1
  let f3 :=
    if currentParagraph1 ≠ "" then { f2 with paragraph1 := currentParagraph1 }
    else f2
  if currentImageUrl ≠ "" then { f3 with imageUrl := currentImageUrl } else f3

/-- The banner editor's form controls (string inputs/selects). -/
structure BannerFields where
  bannerType : String
  text : String
  bgColor : String
  textColor : String
  fontSize : String
  fontFamily : String
deriving DecidableEq

/-- `BannerEditor.saveBanner()`: requires an active campaign (else reports
an error and returns with nothing written); otherwise build the banner
data from the form (`|| default` on each field), put it into the
campaign's `assets.banner` slot, persist the record via `saveCampaign`,
and refresh the pointer via `setActiveCampaign`. A parseable non-campaign
value under the pointer key would make the source throw a `TypeError`;
the model reports it as an unreachable-state log entry. -/
def BannerEditor.saveBanner (s : Storage) (f : BannerFields) (now : Nat) :
    Storage × List String :=
  match CampaignService.getActiveCampaign s with
  | none => (s, ["No active campaign to save to."])
  | some (Val.campaign c) =>
      let bannerData : BannerData :=
        { type := jsOr f.bannerType "square"
          text := jsOr f.text ""
          bgColor := jsOr f.bgColor "#ffffff"
          textColor := jsOr f.textColor "#000000"
          fontSize := jsOr f.fontSize "16"
          fontFamily := jsOr f.fontFamily "sans-serif" }
      let c1 := { c with assets := { c.assets with banner := some bannerData } }
      let s1 := CampaignService.saveCampaign s c1
      (CampaignService.setActiveCampaign s1 c1 now, [])
  | some _ => (s, ["TypeError"])

/-- `MarketingPageEditor.savePage()`: same save protocol for the
marketing-page asset slot. -/
def MarketingPageEditor.savePage (s : Storage) (currentTemplateId : String)
    (f : MarketingFields) (now : Nat) : Storage × List String :=
  match CampaignService.getActiveCampaign s with
  | none => (s, ["No active campaign to save to."])
  | some (Val.campaign c) =>
      let pageData : MarketingPageData :=
        { templateId := currentTemplateId
          title := jsOr f.title ""
          paragraph1 := jsOr f.paragraph1 ""
          imageUrl := jsOr f.imageUrl ""
          bgColor := jsOr f.bgColor "#f8f8f8"
          textColor := jsOr f.textColor "#333333" }
      let c1 :=
        { c with assets := { c.assets with marketingPage := some pageData } }
      let s1 := CampaignService.saveCampaign s c1
      (CampaignService.setActiveCampaign s1 c1 now, [])
  | some _ => (s, ["TypeError"])

/-- `LandingPageEditor.savePage()`: same save protocol for the
landing-page asset slot (the lead-form checkbox rides along). -/
def LandingPageEditor.savePage (s : Storage) (currentTemplateId : String)
    (f : LandingFields) (collectLeads : Bool) (now : Nat) :
    Storage × List String :=
  match CampaignService.getActiveCampaign s with
  | none => (s, ["No active campaign to save to."])
  | some (Val.campaign c) =>
      let pageData : LandingPageData :=
        { templateId := currentTemplateId
          title := jsOr f.title ""
          paragraph := jsOr f.paragraph ""
          imageUrl := jsOr f.imageUrl ""
          ctaText := jsOr f.ctaText ""
          ctaLink := jsOr f.ctaLink "#"
          bgColor := jsOr f.bgColor "#e0f2f7"
          textColor := jsOr f.textColor "#0a2a43"
          includeLeadForm := collectLeads }
      let c1 :=
        { c with assets := { c.assets with landingPage := some pageData } }
      let s1 := CampaignService.saveCampaign s c1
      (CampaignService.setActiveCampaign s1 c1 now, [])
  | some _ => (s, ["TypeError"])

theorem lookupKV_insertKV_self {β : Type} (l : List (String × β)) (k : String)
    (v : β) : lookupKV (insertKV l k v) k = some v := by
  induction l with
  | nil => simp [insertKV, lookupKV]
  | cons p rest ih =>
      by_cases h : p.1 = k
      · simp [insertKV, h, lookupKV]
      · simp [insertKV, h, lookupKV, ih]

theorem lookupKV_insertKV_ne {β : Type} (l : List (String × β)) (k k' : String)
    (v : β) (h : k ≠ k') : lookupKV (insertKV l k v) k' = lookupKV l k' := by
  induction l with
  | nil => simp [insertKV, lookupKV, h]
  | cons p rest ih =>
      by_cases hp : p.1 = k
      · simp [insertKV, hp, lookupKV, h]
      · by_cases hp' : p.1 = k'
        · simp [insertKV, hp, lookupKV, hp', Ne.symm h]
        · simp [insertKV, hp, lookupKV, hp', ih]

theorem setItem_of_quota_false (s : Storage) (k : String) (v : Val)
    (h : s.quotaFull = false) :
    LocalStorageService.setItem s k v =
      (true, { s with items := insertKV s.items k (Cell.json v) }) := by
  simp [LocalStorageService.setItem, rawSetItem, h]

theorem setItem_of_quota_true (s : Storage) (k : String) (v : Val)
    (h : s.quotaFull = true) :
    LocalStorageService.setItem s k v = (false, s) := by
  simp [LocalStorageService.setItem, rawSetItem, h]

theorem quotaFull_setItem (s : Storage) (k : String) (v : Val) :
    (LocalStorageService.setItem s k v).2.quotaFull = s.quotaFull := by
  by_cases h : s.quotaFull
  · simp [setItem_of_quota_true s k v h, h]
  · simp [setItem_of_quota_false s k v (by simp [h]), h]

theorem getItem_insert_self (s : Storage) (k : String) (v : Val)
    (h : s.quotaFull = false) :
    LocalStorageService.getItem (LocalStorageService.setItem s k v).2 k
      = some v := by
  simp [setItem_of_quota_false s k v h, LocalStorageService.getItem,
    lookupKV_insertKV_self, jsonParseCell]

theorem getItem_insert_ne (s : Storage) (k k' : String) (v : Val)
    (h : s.quotaFull = false) (hne : k ≠ k') :
    LocalStorageService.getItem (LocalStorageService.setItem s k v).2 k'
      = LocalStorageService.getItem s k' := by
  simp [setItem_of_quota_false s k v h, LocalStorageService.getItem,
    lookupKV_insertKV_ne _ _ _ _ hne]

theorem campaignKey_ne_activeKey (cid : String) :
    "campaign_" ++ cid ≠ "active_campaign" := by
  intro h
  have h2 := congrArg String.data h
  simp [String.data_append] at h2

/-- C8: for every key and value, the storage gateway's `setItem` returns a
boolean — `false` with the store unchanged when the raw store throws
(quota full), `true` with the value stored otherwise — and `getItem`
returns the parsed value or `null`: `null` for a missing key and for an
unparseable stored string; the parsed value when the stored string is a
serialization. In every case the result is a plain value, so no gateway
operation propagates a thrown failure to its caller. -/
theorem c8_gateway_errors_to_values (s : Storage) (k : String) (v : Val) :
    (s.quotaFull = true → LocalStorageService.setItem s k v = (false, s))
    ∧ (s.quotaFull = false →
        LocalStorageService.setItem s k v =
          (true, { s with items := insertKV s.items k (Cell.json v) }))
    ∧ (lookupKV s.items k = none → LocalStorageService.getItem s k = none)
    ∧ (lookupKV s.items k = some Cell.junk →
        LocalStorageService.getItem s k = none)
    ∧ ∀ w : Val, lookupKV s.items k = some (Cell.json w) →
        LocalStorageService.getItem s k = some w := by
  refine ⟨fun h => setItem_of_quota_true s k v h,
          fun h => setItem_of_quota_false s k v h,
          fun h => ?_, fun h => ?_, fun w h => ?_⟩
  · simp [LocalStorageService.getItem, h]
  · simp [LocalStorageService.getItem, h, jsonParseCell]
  · simp [LocalStorageService.getItem, h, jsonParseCell]

theorem c8_witness :
    LocalStorageService.setItem { items := [], quotaFull := true } "k"
        (Val.session "u") = (false, { items := [], quotaFull := true })
    ∧ LocalStorageService.getItem
        { items := [("g", Cell.junk)], quotaFull := false } "g" = none
    ∧ LocalStorageService.getItem
        { items := [("g", Cell.junk)], quotaFull := false } "h" = none :=
  ⟨(c8_gateway_errors_to_values { items := [], quotaFull := true } "k"
      (Val.session "u")).1 rfl,
   (c8_gateway_errors_to_values { items := [("g", Cell.junk)], quotaFull := false }
      "g" (Val.session "u")).2.2.2.1 (by decide),
   (c8_gateway_errors_to_values { items := [("g", Cell.junk)], quotaFull := false }
      "h" (Val.session "u")).2.2.1 (by decide)⟩

/-- C9: `setActiveCampaign` writes a copy of the record with a fresh
`lastUpdated` timestamp under the `active_campaign` pointer key only:
every other storage key keeps its previous binding — in particular the
per-id record under `'campaign_' + id` keeps whatever `lastUpdated` value
(possibly none) its last `saveCampaign` stored. The store must accept the
write (quota not exceeded). -/
theorem c9_setActive_touches_pointer_only (s : Storage) (c : Campaign)
    (now : Nat) (hq : s.quotaFull = false) :
    LocalStorageService.getItem (CampaignService.setActiveCampaign s c now)
        "active_campaign"
      = some (Val.campaign { c with lastUpdated := some now })
    ∧ (∀ k : String, k ≠ "active_campaign" →
        lookupKV (CampaignService.setActiveCampaign s c now).items k
          = lookupKV s.items k)
    ∧ lookupKV (CampaignService.setActiveCampaign s c now).items
        ("campaign_" ++ c.id)
      = lookupKV s.items ("campaign_" ++ c.id) := by
  refine ⟨?_, fun k hk => ?_, ?_⟩
  · exact getItem_insert_self s "active_campaign"
      (Val.campaign { c with lastUpdated := some now }) hq
  · simp [CampaignService.setActiveCampaign, setItem_of_quota_false _ _ _ hq,
      lookupKV_insertKV_ne _ _ _ _ (Ne.symm hk)]
  · simp [CampaignService.setActiveCampaign, setItem_of_quota_false _ _ _ hq,
      lookupKV_insertKV_ne _ _ _ _ (Ne.symm (campaignKey_ne_activeKey c.id))]

/-- A concrete campaign record used by the concrete-instance theorems. -/
def sampleCampaign : Campaign :=
  { id := "c7"
    name := "Spring Sale"
    status := "Draft"
    assets := { banner := none, marketingPage := none, landingPage := none }
    createdAt := 1
    lastUpdated := none }

theorem c9_witness :
    LocalStorageService.getItem
        (CampaignService.setActiveCampaign
          { items := [("campaign_c7", Cell.json (Val.campaign sampleCampaign))],
            quotaFull := false }
          sampleCampaign 9) "active_campaign"
      = some (Val.campaign { sampleCampaign with lastUpdated := some 9 })
    ∧ lookupKV
        (CampaignService.setActiveCampaign
          { items := [("campaign_c7", Cell.json (Val.campaign sampleCampaign))],
            quotaFull := false }
          sampleCampaign 9).items ("campaign_" ++ sampleCampaign.id)
      = lookupKV
          ({ items := [("campaign_c7", Cell.json (Val.campaign sampleCampaign))],
             quotaFull := false } : Storage).items
          ("campaign_" ++ sampleCampaign.id) :=
  ⟨(c9_setActive_touches_pointer_only
      { items := [("campaign_c7", Cell.json (Val.campaign sampleCampaign))],
        quotaFull := false }
      sampleCampaign 9 rfl).1,
   (c9_setActive_touches_pointer_only
      { items := [("campaign_c7", Cell.json (Val.campaign sampleCampaign))],
        quotaFull := false }
      sampleCampaign 9 rfl).2.2⟩

/-- C5: for an existing username and a password different from the stored
one, `login` returns `false` and leaves the whole store — in particular
the persisted `current_user` session marker — exactly as it was. -/
theorem c5_login_wrong_password_no_mutation (s : Storage)
    (username password : String) (u : User)
    (hfind : UserService.getUser s username = some u)
    (hpw : u.password ≠ password) :
    AuthService.login s username password = (false, s)
    ∧ LocalStorageService.getItem (AuthService.login s username password).2
        "current_user"
      = LocalStorageService.getItem s "current_user" := by
  have h1 : AuthService.login s username password = (false, s) := by
    simp [AuthService.login, hfind, hpw]
  exact ⟨h1, by rw [h1]⟩

theorem c5_witness :
    AuthService.login
        { items := [("app_users", Cell.json (Val.users [{ username := "alice", password := "pw1" }]))],
          quotaFull := false }
        "alice" "pw2"
      = (false,
         { items := [("app_users", Cell.json (Val.users [{ username := "alice", password := "pw1" }]))],
           quotaFull := false }) :=
  (c5_login_wrong_password_no_mutation
    { items := [("app_users", Cell.json (Val.users [{ username := "alice", password := "pw1" }]))],
      quotaFull := false }
    "alice" "pw2" { username := "alice", password := "pw1" }
    (by decide) (by decide)).1

/-- C6: when no active campaign exists (nothing parseable under the
pointer key), each asset editor's save operation reports the error and
returns with the entire key-value storage state identical to before. -/
theorem c6_save_without_active_campaign_is_noop (s : Storage)
    (bf : BannerFields) (mtid : String) (mf : MarketingFields)
    (ltid : String) (lf : LandingFields) (leads : Bool) (now : Nat)
    (hno : CampaignService.getActiveCampaign s = none) :
    BannerEditor.saveBanner s bf now = (s, ["No active campaign to save to."])
    ∧ MarketingPageEditor.savePage s mtid mf now
      = (s, ["No active campaign to save to."])
    ∧ LandingPageEditor.savePage s ltid lf leads now
      = (s, ["No active campaign to save to."]) := by
  refine ⟨?_, ?_, ?_⟩ <;>
    simp [BannerEditor.saveBanner, MarketingPageEditor.savePage,
      LandingPageEditor.savePage, hno]

theorem c6_witness :
    BannerEditor.saveBanner { items := [], quotaFull := false }
        ⟨"square", "50% off", "#ffffff", "#000000", "16", "Arial"⟩ 5
      = ({ items := [], quotaFull := false },
         ["No active campaign to save to."])
    ∧ MarketingPageEditor.savePage { items := [], quotaFull := false }
        "template1" ⟨"t", "p", "i", "#fff", "#333"⟩ 5
      = ({ items := [], quotaFull := false },
         ["No active campaign to save to."])
    ∧ LandingPageEditor.savePage { items := [], quotaFull := false }
        "template1" ⟨"t", "p", "i", "go", "#x", "#fff", "#333"⟩ true 5
      = ({ items := [], quotaFull := false },
         ["No active campaign to save to."]) :=
  c6_save_without_active_campaign_is_noop { items := [], quotaFull := false }
    ⟨"square", "50% off", "#ffffff", "#000000", "16", "Arial"⟩
    "template1" ⟨"t", "p", "i", "#fff", "#333"⟩
    "template1" ⟨"t", "p", "i", "go", "#x", "#fff", "#333"⟩ true 5 rfl

theorem insertKV_insertKV_self {β : Type} (l : List (String × β))
    (k : String) (v v' : β) :
    insertKV (insertKV l k v) k v' = insertKV l k v' := by
  induction l with
  | nil => simp [insertKV]
  | cons p rest ih =>
      by_cases h : p.1 = k
      · simp [insertKV, h]
      · simp [insertKV, h, ih]

/-- C10: `createCampaign(name)` returns a record with status `Draft`,
all-null asset slots, `createdAt` equal to the observed time, id
`'campaign_' + time`, and no `lastUpdated` field, and persists exactly
that record under `'campaign_' + id` (touching no other key); any two
calls that observe the same time produce the same id, so a second create
at that time overwrites the first — the resulting store is as if only the
second create had run. The store must accept the writes. -/
theorem c10_createCampaign_record_and_overwrite (s : Storage)
    (name name2 : String) (now : Nat) (hq : s.quotaFull = false) :
    (CampaignService.createCampaign s name now).1
      = { id := "campaign_" ++ toString now
          name := name
          status := "Draft"
          assets := { banner := none, marketingPage := none, landingPage := none }
          createdAt := now
          lastUpdated := none }
    ∧ lookupKV (CampaignService.createCampaign s name now).2.items
        ("campaign_" ++ (CampaignService.createCampaign s name now).1.id)
      = some (Cell.json (Val.campaign (CampaignService.createCampaign s name now).1))
    ∧ (∀ k : String,
        k ≠ "campaign_" ++ (CampaignService.createCampaign s name now).1.id →
        lookupKV (CampaignService.createCampaign s name now).2.items k
          = lookupKV s.items k)
    ∧ (∀ (s' : Storage) (nm : String),
        (CampaignService.createCampaign s' nm now).1.id
          = (CampaignService.createCampaign s name now).1.id)
    ∧ (CampaignService.createCampaign
        (CampaignService.createCampaign s name now).2 name2 now).2
      = (CampaignService.createCampaign s name2 now).2 := by
  refine ⟨rfl, ?_, fun k hk => ?_, fun s' nm => rfl, ?_⟩
  · simp [CampaignService.createCampaign, CampaignService.saveCampaign,
      CampaignService.generateCampaignId, setItem_of_quota_false _ _ _ hq,
      lookupKV_insertKV_self]
  · simp only [CampaignService.createCampaign, CampaignService.saveCampaign,
      CampaignService.generateCampaignId] at hk ⊢
    simp [setItem_of_quota_false _ _ _ hq,
      lookupKV_insertKV_ne _ _ _ _ (Ne.symm hk)]
  · simp [CampaignService.createCampaign, CampaignService.saveCampaign,
      CampaignService.generateCampaignId, LocalStorageService.setItem,
      rawSetItem, hq, insertKV_insertKV_self]

theorem c10_witness :
    (CampaignService.createCampaign { items := [], quotaFull := false }
        "Spring Sale" 2).1
      = { id := "campaign_2"
          name := "Spring Sale"
          status := "Draft"
          assets := { banner := none, marketingPage := none, landingPage := none }
          createdAt := 2
          lastUpdated := none }
    ∧ (CampaignService.createCampaign
        (CampaignService.createCampaign { items := [], quotaFull := false }
          "Spring Sale" 2).2 "Other" 2).2
      = (CampaignService.createCampaign { items := [], quotaFull := false }
          "Other" 2).2 :=
  ⟨(c10_createCampaign_record_and_overwrite { items := [], quotaFull := false }
      "Spring Sale" "Other" 2 rfl).1,
   (c10_createCampaign_record_and_overwrite { items := [], quotaFull := false }
      "Spring Sale" "Other" 2 rfl).2.2.2.2⟩

theorem lookupKV_hideAll (m : ScreenMap) (k : String) :
    lookupKV (NavigationService.hideAllScreens m) k
      = (lookupKV m k).map (fun _ => true) := by
  induction m with
  | nil => rfl
  | cons p rest ih =>
      by_cases h : p.1 = k
      · simp [NavigationService.hideAllScreens, lookupKV, h]
      · simp only [NavigationService.hideAllScreens, List.map_cons] at ih ⊢
        simp [lookupKV, h, ih]

theorem hideAll_all_hidden (m : ScreenMap) (p : String × Bool)
    (hp : p ∈ NavigationService.hideAllScreens m) : p.2 = true := by
  simp only [NavigationService.hideAllScreens, List.mem_map] at hp
  obtain ⟨q, _, hq⟩ := hp
  rw [← hq]

theorem lookupKV_setHidden_self (m : ScreenMap) (k : String) (b : Bool) :
    lookupKV (setHidden m k b) k = (lookupKV m k).map (fun _ => b) := by
  induction m with
  | nil => rfl
  | cons p rest ih =>
      by_cases h : p.1 = k
      · simp [setHidden, lookupKV, h]
      · simp [setHidden, lookupKV, h, ih]

theorem lookupKV_setHidden_ne (m : ScreenMap) (k k' : String) (b : Bool)
    (h : k ≠ k') : lookupKV (setHidden m k b) k' = lookupKV m k' := by
  induction m with
  | nil => rfl
  | cons p rest ih =>
      by_cases hp : p.1 = k
      · simp [setHidden, hp, lookupKV, h]
      · simp [setHidden, hp, lookupKV, ih]

theorem c2_counterexample :
    ((([("dashboard-screen", false), ("login-screen", true),
        ("main-app-content", true)] : ScreenMap).filter
          (fun p => !p.2)).length = 1)
    ∧ lookupKV
        ([("dashboard-screen", false), ("login-screen", true),
          ("main-app-content", true)] : ScreenMap) "missing-screen" = none
    ∧ (NavigationService.showScreen
        [("dashboard-screen", false), ("login-screen", true),
          ("main-app-content", true)] "missing-screen").2 ≠ []
    ∧ lookupKV
        (NavigationService.showScreen
          [("dashboard-screen", false), ("login-screen", true),
            ("main-app-content", true)] "missing-screen").1 "dashboard-screen"
      = some true
    ∧ (((NavigationService.showScreen
          [("dashboard-screen", false), ("login-screen", true),
            ("main-app-content", true)] "missing-screen").1.filter
            (fun p => !p.2)).length = 0) := by
  decide

/-- C2 (amended): navigating to a screen id that is not in the registry
reports an error and leaves every registered screen hidden — the hide-all
step has already mutated the view, so the previously visible screen is
hidden and no screen is visible after the call. -/
theorem c2_unregistered_navigation_hides_all (m : ScreenMap) (sid : String)
    (hmiss : lookupKV m sid = none) :
    NavigationService.showScreen m sid
      = (NavigationService.hideAllScreens m,
         ["Screen with ID \"" ++ sid ++ "\" not registered."])
    ∧ ∀ p ∈ (NavigationService.showScreen m sid).1, p.2 = true := by
  have hm : lookupKV (NavigationService.hideAllScreens m) sid = none := by
    rw [lookupKV_hideAll, hmiss]; rfl
  have h1 : NavigationService.showScreen m sid
      = (NavigationService.hideAllScreens m,
         ["Screen with ID \"" ++ sid ++ "\" not registered."]) := by
    simp [NavigationService.showScreen, hm]
  refine ⟨h1, ?_⟩
  rw [h1]
  exact fun p hp => hideAll_all_hidden m p hp

theorem c2_witness :
    NavigationService.showScreen
        [("dashboard-screen", false), ("login-screen", true),
          ("main-app-content", true)] "missing-screen"
      = ([("dashboard-screen", true), ("login-screen", true),
          ("main-app-content", true)],
         ["Screen with ID \"missing-screen\" not registered."]) := by
  have h := (c2_unregistered_navigation_hides_all
    [("dashboard-screen", false), ("login-screen", true),
      ("main-app-content", true)] "missing-screen" (by decide)).1
  exact h.trans (by decide)

/-- C7: with no session marker stored, every navigation to an
authenticated screen (dashboard, banner, marketing, landing editors)
performs exactly the login-screen navigation instead; after it the login
screen is the one visible screen and every other registered screen —
authenticated screens included — carries the `hidden` class. -/
theorem c7_no_session_redirects_to_login (s : Storage) (m : ScreenMap)
    (hsess : AuthService.getLoggedInUser s = none)
    (hreg : (lookupKV m "login-screen").isSome = true) :
    NavigationService.goToDashboard s m
      = NavigationService.showScreen m "login-screen"
    ∧ NavigationService.goToBannerEditor s m
      = NavigationService.showScreen m "login-screen"
    ∧ NavigationService.goToMarketingPageEditor s m
      = NavigationService.showScreen m "login-screen"
    ∧ NavigationService.goToLandingPageEditor s m
      = NavigationService.showScreen m "login-screen"
    ∧ lookupKV (NavigationService.showScreen m "login-screen").1 "login-screen"
      = some false
    ∧ ∀ k : String, k ≠ "login-screen" →
        ∀ h : Bool,
          lookupKV (NavigationService.showScreen m "login-screen").1 k = some h →
          h = true := by
  obtain ⟨c, hc⟩ := Option.isSome_iff_exists.mp hreg
  have hm1 : lookupKV (NavigationService.hideAllScreens m) "login-screen"
      = some true := by
    rw [lookupKV_hideAll, hc]; rfl
  have hshow : NavigationService.showScreen m "login-screen"
      = (setHidden
          (setHidden (NavigationService.hideAllScreens m) "login-screen" false)
          "main-app-content" true, []) := by
    simp [NavigationService.showScreen, hm1]
  refine ⟨?_, ?_, ?_, ?_, ?_, ?_⟩
  · simp [NavigationService.goToDashboard, hsess, NavigationService.goToLogin]
  · simp [NavigationService.goToBannerEditor, hsess, NavigationService.goToLogin]
  · simp [NavigationService.goToMarketingPageEditor, hsess,
      NavigationService.goToLogin]
  · simp [NavigationService.goToLandingPageEditor, hsess,
      NavigationService.goToLogin]
  · rw [hshow]
    have h2 := lookupKV_setHidden_ne
      (setHidden (NavigationService.hideAllScreens m) "login-screen" false)
      "main-app-content" "login-screen" true (by decide)
    rw [h2, lookupKV_setHidden_self, hm1]
    rfl
  · intro k hk h hkh
    rw [hshow] at hkh
    by_cases hmac : k = "main-app-content"
    · subst hmac
      rw [lookupKV_setHidden_self] at hkh
      cases hopt : lookupKV
          (setHidden (NavigationService.hideAllScreens m) "login-screen" false)
          "main-app-content" with
      | none => rw [hopt] at hkh; simp at hkh
      | some b => rw [hopt] at hkh; simp at hkh; exact hkh
    · rw [lookupKV_setHidden_ne _ _ _ _ (fun he => hmac he.symm)] at hkh
      rw [lookupKV_setHidden_ne _ _ _ _ (Ne.symm hk)] at hkh
      rw [lookupKV_hideAll] at hkh
      cases hopt : lookupKV m k with
      | none => rw [hopt] at hkh; simp at hkh
      | some b => rw [hopt] at hkh; simp at hkh; exact hkh

theorem c7_witness :
    NavigationService.goToDashboard { items := [], quotaFull := false }
        [("login-screen", true), ("main-app-content", false),
          ("dashboard-screen", false), ("banner-editor-screen", true),
          ("marketing-editor-screen", true), ("landing-editor-screen", true)]
      = NavigationService.showScreen
          [("login-screen", true), ("main-app-content", false),
            ("dashboard-screen", false), ("banner-editor-screen", true),
            ("marketing-editor-screen", true), ("landing-editor-screen", true)]
          "login-screen"
    ∧ lookupKV
        (NavigationService.showScreen
          [("login-screen", true), ("main-app-content", false),
            ("dashboard-screen", false), ("banner-editor-screen", true),
            ("marketing-editor-screen", true), ("landing-editor-screen", true)]
          "login-screen").1 "login-screen"
      = some false :=
  ⟨(c7_no_session_redirects_to_login { items := [], quotaFull := false }
      [("login-screen", true), ("main-app-content", false),
        ("dashboard-screen", false), ("banner-editor-screen", true),
        ("marketing-editor-screen", true), ("landing-editor-screen", true)]
      rfl (by decide)).1,
   (c7_no_session_redirects_to_login { items := [], quotaFull := false }
      [("login-screen", true), ("main-app-content", false),
        ("dashboard-screen", false), ("banner-editor-screen", true),
        ("marketing-editor-screen", true), ("landing-editor-screen", true)]
      rfl (by decide)).2.2.2.2.1⟩

theorem c3_counterexample :
    ((⟨"T", "P", "I", "Buy now", "L", "B", "C"⟩ : LandingFields).title ≠ ""
      ∧ (⟨"T", "P", "I", "Buy now", "L", "B", "C"⟩ : LandingFields).paragraph ≠ ""
      ∧ (⟨"T", "P", "I", "Buy now", "L", "B", "C"⟩ : LandingFields).imageUrl ≠ ""
      ∧ (⟨"T", "P", "I", "Buy now", "L", "B", "C"⟩ : LandingFields).ctaText ≠ "")
    ∧ (LandingPageEditor.applyTemplate "template1"
        ⟨"T", "P", "I", "Buy now", "L", "B", "C"⟩).ctaText = "Get Started Today"
    ∧ (LandingPageEditor.applyTemplate "template1"
        ⟨"T", "P", "I", "Buy now", "L", "B", "C"⟩).ctaText ≠ "Buy now" := by
  decide

/-- C3 (amended): with non-empty title, body/paragraph and image-URL
fields, applying a catalog template leaves exactly those three values
unchanged, while every remaining field (CTA text and link, background and
text colors) receives the template's preset value whether or not it was
empty. Stated for the landing and marketing editors together. -/
theorem c3_apply_template_preserves_filled_content (lf : LandingFields)
    (mf : MarketingFields) (tidL tidM : String) (dL : LandingFields)
    (dM : MarketingFields)
    (hdL : LandingPageEditor.templatesDefaults tidL = some dL)
    (hdM : MarketingPageEditor.templatesDefaults tidM = some dM)
    (hlt : lf.title ≠ "") (hlp : lf.paragraph ≠ "") (hli : lf.imageUrl ≠ "")
    (hmt : mf.title ≠ "") (hmp : mf.paragraph1 ≠ "") (hmi : mf.imageUrl ≠ "") :
    LandingPageEditor.applyTemplate tidL lf
      = { dL with
          title := lf.title
          paragraph := lf.paragraph
          imageUrl := lf.imageUrl }
    ∧ MarketingPageEditor.applyTemplate tidM mf
      = { dM with
          title := mf.title
          paragraph1 := mf.paragraph1
          imageUrl := mf.imageUrl } := by
  constructor
  · simp [LandingPageEditor.applyTemplate, hdL, hlt, hlp, hli]
  · simp [MarketingPageEditor.applyTemplate, hdM, hmt, hmp, hmi]

theorem c3_witness :
    LandingPageEditor.applyTemplate "template2"
        ⟨"My Title", "My Para", "http://x", "", "", "", ""⟩
      = ⟨"My Title", "My Para", "http://x", "Claim Your Discount",
          "#discount", "#fce4ec", "#4a148c"⟩
    ∧ MarketingPageEditor.applyTemplate "template3"
        ⟨"MT", "MP", "http://y", "", ""⟩
      = ⟨"MT", "MP", "http://y", "#fffde7", "#424242"⟩ := by
  have h := c3_apply_template_preserves_filled_content
    ⟨"My Title", "My Para", "http://x", "", "", "", ""⟩
    ⟨"MT", "MP", "http://y", "", ""⟩ "template2" "template3" _ _
    rfl rfl (by decide) (by decide) (by decide)
    (by decide) (by decide) (by decide)
  exact ⟨h.1.trans (by decide), h.2.trans (by decide)⟩

theorem find?_append_singleton {α : Type} (p : α → Bool) (l : List α) (a : α)
    (h : l.find? p = none) :
    (l ++ [a]).find? p = if p a then some a else none := by
  induction l with
  | nil => cases hp : p a <;> simp [List.find?, hp]
  | cons x xs ih =>
      cases hx : p x with
      | true =>
          rw [List.find?_cons_of_pos _ hx] at h
          exact absurd h (by simp)
      | false =>
          have hx' : ¬ p x = true := by simp [hx]
          rw [List.find?_cons_of_neg _ hx'] at h
          rw [List.cons_append, List.find?_cons_of_neg _ hx']
          exact ih h

/-- C4: for a username not yet in the user directory, `signup` succeeds,
stores the user, and auto-logs-in (the `current_user` marker holds the
username); a later `login` with the same credentials succeeds; and a
second `signup` with the same username returns `false` and changes
nothing — the stored user list (indeed the whole store) is untouched.
The store must accept the writes and the `app_users` key must be
well-typed. -/
theorem c4_signup_once_login_succeeds (s : Storage) (username password : String)
    (hq : s.quotaFull = false) (hok : usersKeyOk s = true)
    (hfresh : UserService.getUser s username = none) :
    (AuthService.signup s username password).1 = true
    ∧ UserService.getUser (AuthService.signup s username password).2 username
      = some { username := username, password := password }
    ∧ LocalStorageService.getItem (AuthService.signup s username password).2
        "current_user" = some (Val.session username)
    ∧ (AuthService.login (AuthService.signup s username password).2
        username password).1 = true
    ∧ AuthService.signup (AuthService.signup s username password).2
        username password
      = (false, (AuthService.signup s username password).2) := by
  have hfind0 : (UserService.getUsers s).find?
      (fun u => u.username = username) = none := hfresh
  have hany : (UserService.getUsers s).any
      (fun u => u.username = username) = false := by
    rw [List.any_eq_false]
    intro x hx
    have := List.find?_eq_none.mp hfind0 x hx
    simpa using this
  have hsave : UserService.saveUser s
      { username := username, password := password }
      = (true, (LocalStorageService.setItem s "app_users"
          (Val.users (UserService.getUsers s
            ++ [{ username := username, password := password }]))).2) := by
    simp [UserService.saveUser, hany]
  have hq1 : (LocalStorageService.setItem s "app_users"
      (Val.users (UserService.getUsers s
        ++ [{ username := username, password := password }]))).2.quotaFull
      = false := by
    rw [quotaFull_setItem]; exact hq
  have husers1 : UserService.getUsers (LocalStorageService.setItem s "app_users"
      (Val.users (UserService.getUsers s
        ++ [{ username := username, password := password }]))).2
      = UserService.getUsers s
        ++ [{ username := username, password := password }] := by
    simp [UserService.getUsers, getItem_insert_self s _ _ hq]
  have hfind1 : UserService.getUser (LocalStorageService.setItem s "app_users"
      (Val.users (UserService.getUsers s
        ++ [{ username := username, password := password }]))).2 username
      = some { username := username, password := password } := by
    rw [UserService.getUser, husers1, find?_append_singleton _ _ _ hfind0]
    simp
  have hlogin1 : AuthService.login (LocalStorageService.setItem s "app_users"
      (Val.users (UserService.getUsers s
        ++ [{ username := username, password := password }]))).2 username password
      = (true, (LocalStorageService.setItem
          (LocalStorageService.setItem s "app_users"
            (Val.users (UserService.getUsers s
              ++ [{ username := username, password := password }]))).2
          "current_user" (Val.session username)).2) := by
    simp [AuthService.login, hfind1]
  have hsign : AuthService.signup s username password
      = (true, (LocalStorageService.setItem
          (LocalStorageService.setItem s "app_users"
            (Val.users (UserService.getUsers s
              ++ [{ username := username, password := password }]))).2
          "current_user" (Val.session username)).2) := by
    rw [AuthService.signup, hsave]
    exact hlogin1
  have husers2 : UserService.getUsers (LocalStorageService.setItem
      (LocalStorageService.setItem s "app_users"
        (Val.users (UserService.getUsers s
          ++ [{ username := username, password := password }]))).2
      "current_user" (Val.session username)).2
      = UserService.getUsers s
        ++ [{ username := username, password := password }] := by
    rw [UserService.getUsers,
      getItem_insert_ne _ "current_user" "app_users" _ hq1 (by decide)]
    rw [UserService.getUsers] at husers1
    exact husers1
  have hfind2 : UserService.getUser (LocalStorageService.setItem
      (LocalStorageService.setItem s "app_users"
        (Val.users (UserService.getUsers s
          ++ [{ username := username, password := password }]))).2
      "current_user" (Val.session username)).2 username
      = some { username := username, password := password } := by
    rw [UserService.getUser, husers2, find?_append_singleton _ _ _ hfind0]
    simp
  have hany2 : (UserService.getUsers (LocalStorageService.setItem
      (LocalStorageService.setItem s "app_users"
        (Val.users (UserService.getUsers s
          ++ [{ username := username, password := password }]))).2
      "current_user" (Val.session username)).2).any
      (fun u => u.username = username) = true := by
    rw [husers2, List.any_eq_true]
    refine ⟨{ username := username, password := password }, ?_, by simp⟩
    exact List.mem_append_right _ (List.mem_singleton_self _)
  refine ⟨by rw [hsign], ?_, ?_, ?_, ?_⟩
  · rw [hsign]
    exact hfind2
  · rw [hsign]
    exact getItem_insert_self _ _ _ hq1
  · rw [hsign]
    simp [AuthService.login, hfind2]
  · rw [hsign]
    rw [AuthService.signup, UserService.saveUser]
    simp [hany2]

theorem c4_witness :
    (AuthService.signup { items := [], quotaFull := false } "bob" "pw").1 = true
    ∧ LocalStorageService.getItem
        (AuthService.signup { items := [], quotaFull := false } "bob" "pw").2
        "current_user" = some (Val.session "bob")
    ∧ AuthService.signup
        (AuthService.signup { items := [], quotaFull := false } "bob" "pw").2
        "bob" "pw"
      = (false,
         (AuthService.signup { items := [], quotaFull := false } "bob" "pw").2) :=
  ⟨(c4_signup_once_login_succeeds { items := [], quotaFull := false }
      "bob" "pw" rfl rfl rfl).1,
   (c4_signup_once_login_succeeds { items := [], quotaFull := false }
      "bob" "pw" rfl rfl rfl).2.2.1,
   (c4_signup_once_login_succeeds { items := [], quotaFull := false }
      "bob" "pw" rfl rfl rfl).2.2.2.2⟩

theorem isCampaignKey_append (x : String) :
    isCampaignKey ("campaign_" ++ x) = true := by
  simp [isCampaignKey, String.data_append, List.isPrefixOf_iff_prefix,
    List.prefix_append]

theorem jsInsertSorted_perm (a : Campaign) (l : List Campaign) :
    List.Perm (jsInsertSorted a l) (a :: l) := by
  induction l with
  | nil => exact List.Perm.refl _
  | cons b t ih =>
      by_cases h : jsCompare a b ≤ 0
      · simp [jsInsertSorted, h]
      · simp only [jsInsertSorted, if_neg h]
        exact (List.Perm.cons b ih).trans (List.Perm.swap a b t)

theorem jsSort_perm (l : List Campaign) : List.Perm (jsSort l) l := by
  induction l with
  | nil => exact List.Perm.refl _
  | cons x t ih =>
      simp only [jsSort, List.foldr_cons]
      exact (jsInsertSorted_perm x (jsSort t)).trans (List.Perm.cons x ih)

theorem mem_collect_cons (k' : String) (cell : Cell)
    (rest : List (String × Cell)) (x : Campaign)
    (hx : x ∈ collectCampaigns rest) :
    x ∈ collectCampaigns ((k', cell) :: rest) := by
  by_cases hk' : isCampaignKey k'
  · cases cell with
    | junk => simpa [collectCampaigns, hk', jsonParseCell] using hx
    | json v =>
        cases v with
        | campaign c =>
            simp only [collectCampaigns, hk', if_true, jsonParseCell]
            exact List.mem_cons_of_mem _ hx
        | session u => simpa [collectCampaigns, hk', jsonParseCell] using hx
        | users l => simpa [collectCampaigns, hk', jsonParseCell] using hx
  · simpa [collectCampaigns, hk'] using hx

theorem collect_insert_nonCampaignKey (items : List (String × Cell))
    (k : String) (cell : Cell) (hk : isCampaignKey k = false) :
    collectCampaigns (insertKV items k cell) = collectCampaigns items := by
  induction items with
  | nil => simp [insertKV, collectCampaigns, hk]
  | cons p rest ih =>
      obtain ⟨k', cell'⟩ := p
      by_cases hkk : k' = k
      · subst hkk
        simp [insertKV, collectCampaigns, hk]
      · by_cases hk' : isCampaignKey k'
        · cases cell' with
          | junk => simp [insertKV, hkk, collectCampaigns, hk', jsonParseCell, ih]
          | json v =>
              cases v with
              | campaign c =>
                  simp [insertKV, hkk, collectCampaigns, hk', jsonParseCell, ih]
              | session u =>
                  simp [insertKV, hkk, collectCampaigns, hk', jsonParseCell, ih]
              | users l =>
                  simp [insertKV, hkk, collectCampaigns, hk', jsonParseCell, ih]
        · simp [insertKV, hkk, collectCampaigns, hk', ih]

theorem countP_collect_insert_campaign (items : List (String × Cell))
    (k : String) (c : Campaign) (nm : String)
    (hk : isCampaignKey k = true)
    (h : ∀ x ∈ collectCampaigns items, ¬ x.name = nm)
    (hc : c.name = nm) :
    (collectCampaigns (insertKV items k (Cell.json (Val.campaign c)))).countP
      (fun x => x.name = nm) = 1 := by
  induction items with
  | nil => simp [insertKV, collectCampaigns, hk, jsonParseCell, hc]
  | cons p rest ih =>
      obtain ⟨k', cell'⟩ := p
      have hrest : ∀ x ∈ collectCampaigns rest, ¬ x.name = nm :=
        fun x hx => h x (mem_collect_cons k' cell' rest x hx)
      by_cases hkk : k' = k
      · subst hkk
        have hzero : (collectCampaigns rest).countP (fun x => x.name = nm) = 0 :=
          List.countP_eq_zero.mpr (by simpa using hrest)
        simp [insertKV, collectCampaigns, hk, jsonParseCell, hc, hzero]
      · by_cases hk' : isCampaignKey k'
        · cases cell' with
          | junk =>
              simp only [insertKV, if_neg hkk, collectCampaigns, hk', if_true,
                jsonParseCell]
              exact ih hrest
          | json v =>
              cases v with
              | campaign c0 =>
                  have hc0 : ¬ c0.name = nm := by
                    refine h c0 ?_
                    simp [collectCampaigns, hk', jsonParseCell]
                  simp only [insertKV, if_neg hkk, collectCampaigns, hk',
                    if_true, jsonParseCell, List.countP_cons]
                  rw [ih hrest]
                  simp [hc0]
              | session u =>
                  simp only [insertKV, if_neg hkk, collectCampaigns, hk',
                    if_true, jsonParseCell]
                  exact ih hrest
              | users l =>
                  simp only [insertKV, if_neg hkk, collectCampaigns, hk',
                    if_true, jsonParseCell]
                  exact ih hrest
        · simp only [insertKV, if_neg hkk]
          have hcoll : collectCampaigns
              ((k', cell') :: insertKV rest k (Cell.json (Val.campaign c)))
              = collectCampaigns (insertKV rest k (Cell.json (Val.campaign c))) := by
            simp [collectCampaigns, hk']
          rw [hcoll]
          exact ih hrest

/-- C1 (amended): starting from a store none of whose campaign records
has the requested name, `createCampaign(name)` then `setActiveCampaign`
on the returned record then `getAllCampaigns` yields a list containing
exactly one record with that name; and whenever that record has the most
recent `lastUpdated` timestamp among all listed campaigns it sorts first
— a condition that never fires, because the freshly created record
carries no `lastUpdated` field at all (`setActiveCampaign` stamps only
the pointer copy, see the frame theorem for the pointer key). -/
theorem c1_create_setActive_listAll (s : Storage) (name : String) (now tA : Nat)
    (hq : s.quotaFull = false)
    (hok : campaignKeysOk s = true)
    (hfresh : ∀ x ∈ collectCampaigns s.items, ¬ x.name = name) :
    ((CampaignService.getAllCampaigns
        (CampaignService.setActiveCampaign
          (CampaignService.createCampaign s name now).2
          (CampaignService.createCampaign s name now).1 tA)).countP
      (fun x => x.name = name)) = 1
    ∧ ((∃ t : Nat,
          (CampaignService.createCampaign s name now).1.lastUpdated = some t
          ∧ ∀ x ∈ CampaignService.getAllCampaigns
              (CampaignService.setActiveCampaign
                (CampaignService.createCampaign s name now).2
                (CampaignService.createCampaign s name now).1 tA),
              ∀ t' : Nat, x.lastUpdated = some t' → t' ≤ t) →
        (CampaignService.getAllCampaigns
          (CampaignService.setActiveCampaign
            (CampaignService.createCampaign s name now).2
            (CampaignService.createCampaign s name now).1 tA)).head?
          = some (CampaignService.createCampaign s name now).1) := by
  constructor
  · have hs2items : (CampaignService.setActiveCampaign
        (CampaignService.createCampaign s name now).2
        (CampaignService.createCampaign s name now).1 tA).items
        = insertKV
            (insertKV s.items
              ("campaign_" ++ ("campaign_" ++ toString now))
              (Cell.json (Val.campaign
                (CampaignService.createCampaign s name now).1)))
            "active_campaign"
            (Cell.json (Val.campaign
              { (CampaignService.createCampaign s name now).1 with
                  lastUpdated := some tA })) := by
      simp [CampaignService.setActiveCampaign, CampaignService.createCampaign,
        CampaignService.saveCampaign, CampaignService.generateCampaignId,
        LocalStorageService.setItem, rawSetItem, hq]
    rw [CampaignService.getAllCampaigns, (jsSort_perm _).countP_eq, hs2items,
      collect_insert_nonCampaignKey _ _ _ (by decide),
      countP_collect_insert_campaign _ _ _ _ (isCampaignKey_append _) hfresh rfl]
  · rintro ⟨t, ht, _⟩
    exact absurd ht (by simp [CampaignService.createCampaign])

theorem c1_counterexample :
    ((CampaignService.getAllCampaigns
        (CampaignService.setActiveCampaign
          (CampaignService.createCampaign
            { items := [("campaign_1", Cell.json (Val.campaign
                { id := "1", name := "Spring Sale", status := "Draft"
                  assets := { banner := none, marketingPage := none,
                              landingPage := none }
                  createdAt := 0, lastUpdated := none }))],
              quotaFull := false } "Spring Sale" 2).2
          (CampaignService.createCampaign
            { items := [("campaign_1", Cell.json (Val.campaign
                { id := "1", name := "Spring Sale", status := "Draft"
                  assets := { banner := none, marketingPage := none,
                              landingPage := none }
                  createdAt := 0, lastUpdated := none }))],
              quotaFull := false } "Spring Sale" 2).1 3)).countP
      (fun x => x.name = "Spring Sale")) = 2 := by
  decide

theorem c1_witness :
    ((CampaignService.getAllCampaigns
        (CampaignService.setActiveCampaign
          (CampaignService.createCampaign
            { items := [("campaign_1", Cell.json (Val.campaign
                { id := "1", name := "Other", status := "Draft"
                  assets := { banner := none, marketingPage := none,
                              landingPage := none }
                  createdAt := 0, lastUpdated := some 1 }))],
              quotaFull := false } "Spring Sale" 2).2
          (CampaignService.createCampaign
            { items := [("campaign_1", Cell.json (Val.campaign
                { id := "1", name := "Other", status := "Draft"
                  assets := { banner := none, marketingPage := none,
                              landingPage := none }
                  createdAt := 0, lastUpdated := some 1 }))],
              quotaFull := false } "Spring Sale" 2).1 3)).countP
      (fun x => x.name = "Spring Sale")) = 1 :=
  (c1_create_setActive_listAll
    { items := [("campaign_1", Cell.json (Val.campaign
        { id := "1", name := "Other", status := "Draft"
          assets := { banner := none, marketingPage := none,
                      landingPage := none }
          createdAt := 0, lastUpdated := some 1 }))],
      quotaFull := false } "Spring Sale" 2 3 rfl (by decide) (by decide)).1
